import Mathlib

/-!
Verification development for the Student Application Portal front-end.

The repository consists of a fetch-based API client module
(src/unnamed/part_000, imported by the app as ./api/client) and a React
view layer (src/frontend_web/src/App.js).  JSON values transported by the
client are modelled by the `Json` type below; host builtins used by the
code (JSON.parse, JSON.stringify, the String() conversion, truthiness,
URLSearchParams) are modelled by executable Lean functions over that type.
The outcome of the external JSON parser on a response body is carried as a
field of the response model, since the parser itself is a host primitive.
-/

/-- model of a JavaScript JSON value: the values produced by JSON.parse and
passed through the API client. -/
inductive Json where
  | null : Json
  | bool (b : Bool) : Json
  | num (n : Int) : Json
  | str (s : String) : Json
  | arr (elems : List Json) : Json
  | obj (fields : List (String × Json)) : Json
deriving Repr

/-- uppercase hexadecimal digit for n below 16, as used by percent
encoding. -/
def hexDigit (n : Nat) : Char :=
  if n < 10 then Char.ofNat (48 + n) else Char.ofNat (55 + n)

/-- lowercase hexadecimal digit for n below 16, as used inside the unicode
escapes of JSON.stringify. -/
def hexDigitLower (n : Nat) : Char :=
  if n < 10 then Char.ofNat (48 + n) else Char.ofNat (87 + n)

/-- escape of one character inside a JSON string literal, following
JSON.stringify: quote, backslash and the named control characters get a
short backslash form, the remaining control characters a unicode form. -/
def jsonEscapeChar (c : Char) : String :=
  if c = '"' then "\\\""
  else if c = '\\' then "\\\\"
  else if c = '\x08' then "\\b"
  else if c = '\x09' then "\\t"
  else if c = '\x0a' then "\\n"
  else if c = '\x0c' then "\\f"
  else if c = '\x0d' then "\\r"
  else if c.toNat < 32 then
    String.mk ['\\', 'u', '0', '0', hexDigitLower (c.toNat / 16), hexDigitLower (c.toNat % 16)]
  else String.singleton c

/-- body of a JSON string literal as produced by JSON.stringify. -/
def jsonEscape (s : String) : String :=
  String.join (s.data.map jsonEscapeChar)

mutual

/-- model of JSON.stringify; object keys keep the insertion order of the
field list, matching JavaScript. -/
def stringify : Json → String
  | Json.null => "null"
  | Json.bool true => "true"
  | Json.bool false => "false"
  | Json.num n => toString n
  | Json.str s => "\"" ++ jsonEscape s ++ "\""
  | Json.arr xs => "[" ++ stringifyElems xs ++ "]"
  | Json.obj fs => "\x7b" ++ stringifyFields fs ++ "\x7d"

/-- comma-joined stringification of array elements. -/
def stringifyElems : List Json → String
  | [] => ""
  | [x] => stringify x
  | x :: xs => stringify x ++ "," ++ stringifyElems xs

/-- comma-joined stringification of object fields. -/
def stringifyFields : List (String × Json) → String
  | [] => ""
  | [(k, v)] => "\"" ++ jsonEscape k ++ "\":" ++ stringify v
  | (k, v) :: fs => "\"" ++ jsonEscape k ++ "\":" ++ stringify v ++ "," ++ stringifyFields fs

end

mutual

/-- model of the JavaScript String() conversion on transported values. -/
def jsToString : Json → String
  | Json.null => "null"
  | Json.bool true => "true"
  | Json.bool false => "false"
  | Json.num n => toString n
  | Json.str s => s
  | Json.arr xs => jsArrayToString xs
  | Json.obj _ => "[object Object]"

/-- model of Array.prototype.toString: elements joined by commas, with null
elements rendered as the empty string. -/
def jsArrayToString : List Json → String
  | [] => ""
  | [Json.null] => ""
  | [x] => jsToString x
  | Json.null :: xs => "," ++ jsArrayToString xs
  | x :: xs => jsToString x ++ "," ++ jsArrayToString xs

end

/-- model of JavaScript truthiness on transported values. -/
def jsTruthy : Json → Bool
  | Json.null => false
  | Json.bool b => b
  | Json.num n => n != 0
  | Json.str s => s != ""
  | Json.arr _ => true
  | Json.obj _ => true

/-- true when the pattern is a leading piece of the character list. -/
def leadMatch : List Char → List Char → Bool
  | [], _ => true
  | _ :: _, [] => false
  | p :: ps, c :: cs => (p == c) && leadMatch ps cs

/-- true when the pattern occurs somewhere inside the character list. -/
def charsContain (s pat : List Char) : Bool :=
  match s with
  | [] => pat.isEmpty
  | c :: cs => leadMatch pat (c :: cs) || charsContain cs pat

/-- model of String.prototype.includes: substring occurrence test; only
applied to the pattern application/json. -/
def strContains (s pat : String) : Bool :=
  charsContain s.data pat.data

/-- model of the regex replacement of /slash-dollar/ with the empty
string: removes the final character when it is a slash, and nothing
otherwise. -/
def removeTrailingSlash : List Char → List Char
  | [] => []
  | [c] => if c = '/' then [] else [c]
  | c :: cs => c :: removeTrailingSlash cs

/-- normalizeBase from the API client: the base (or the empty string when
null or undefined, modelled as none) with one trailing slash removed. -/
def normalizeBase (apiBase : Option String) : String :=
  String.mk (removeTrailingSlash (apiBase.getD "").data)

/-- arguments of the core request helper of the API client. -/
structure RequestArgs where
  apiBase : Option String := none
  path : String := ""
  method : String := "GET"
  token : Option String := none
  body : Option Json := none

/-- the outbound HTTP request the client hands to fetch: url, method, the
header list in insertion order, and the serialized body when present. -/
structure HttpRequest where
  url : String
  method : String
  headers : List (String × String)
  body : Option String
deriving Repr, DecidableEq

/-- outbound half of the request helper: builds the URL from the
normalized base and the path, always sets the JSON content type header,
adds the bearer authorization header only when the token is truthy, and
serializes the body only when it is truthy. -/
def request (a : RequestArgs) : HttpRequest :=
  { url := normalizeBase a.apiBase ++ a.path
    method := a.method
    headers :=
      [("Content-Type", "application/json")] ++
        (match a.token with
         | some t => if t != "" then [("Authorization", "Bearer " ++ t)] else []
         | none => [])
    body :=
      match a.body with
      | some b => if jsTruthy b then some (stringify b) else none
      | none => none }

/-- a response body: the raw text together with the outcome of the host
JSON parser on that text (none when JSON.parse would throw). -/
structure BodyText where
  raw : String
  parsed : Option Json

/-- the part of a fetch response the client inspects: the ok flag, the
numeric status, the content type header, and the body. -/
structure Response where
  ok : Bool
  status : Nat
  contentType : Option String
  body : BodyText

/-- parseJsonOrText from the client: when the content type header declares
application/json the body is parsed with resp.json (none models the
rejection on an unparsable body); otherwise JSON.parse is attempted on the
text and the raw text is returned when it fails. -/
def parseJsonOrText (resp : Response) : Option Json :=
  if strContains (resp.contentType.getD "") "application/json" then resp.body.parsed
  else some (resp.body.parsed.getD (Json.str resp.body.raw))

/-- the guard data and typeof data equals object from errorFromResponse:
true exactly for objects and arrays (null is falsy). -/
def isObjectLike : Json → Bool
  | Json.obj _ => true
  | Json.arr _ => true
  | _ => false

/-- the detail property of a transported value: a field lookup on objects,
absent on everything else. -/
def detailField : Json → Option Json
  | Json.obj fs => fs.lookup "detail"
  | _ => none

/-- errorFromResponse from the client, giving the message of the Error it
constructs: for an object or array body, the detail field coalesced with
the body itself; a string result is used directly and anything else is
prefixed with the status and JSON-stringified; a non-object body is
prefixed with the status and converted with String(). -/
def errorFromResponse (status : Nat) (data : Json) : String :=
  if isObjectLike data then
    let detail :=
      match detailField data with
      | some Json.null => data
      | some v => v
      | none => data
    match detail with
    | Json.str s => s
    | d => toString status ++ ": " ++ stringify d
  else toString status ++ ": " ++ jsToString data

/-- outcome of the inbound half of the request helper: the returned data,
a thrown Error message, or the rejection of resp.json on an unparsable
declared-JSON body. -/
inductive RequestOutcome where
  | success (data : Json)
  | failure (message : String)
  | parseRejection
deriving Repr

/-- inbound half of the request helper: the body is parsed with
parseJsonOrText, and a non-ok response throws the error built by
errorFromResponse from the status and the parsed data. -/
def requestOutcome (resp : Response) : RequestOutcome :=
  match parseJsonOrText resp with
  | none => RequestOutcome.parseRejection
  | some data =>
    if resp.ok then RequestOutcome.success data
    else RequestOutcome.failure (errorFromResponse resp.status data)

/-- apiRegister: POST /auth/register with the registration fields as JSON
body and no token. -/
def apiRegister (apiBase : Option String) (email password first_name last_name : String) :
    HttpRequest :=
  request
    { apiBase := apiBase, path := "/auth/register", method := "POST",
      body := some (Json.obj
        [("email", Json.str email), ("password", Json.str password),
         ("first_name", Json.str first_name), ("last_name", Json.str last_name)]) }

/-- apiLogin: POST /auth/login with the credentials as JSON body and no
token. -/
def apiLogin (apiBase : Option String) (email password : String) : HttpRequest :=
  request
    { apiBase := apiBase, path := "/auth/login", method := "POST",
      body := some (Json.obj [("email", Json.str email), ("password", Json.str password)]) }

/-- apiMe: GET /auth/me with the token and no body. -/
def apiMe (apiBase token : Option String) : HttpRequest :=
  request { apiBase := apiBase, path := "/auth/me", method := "GET", token := token }

/-- apiListMyApplications: GET /applications/my with the token and no
body. -/
def apiListMyApplications (apiBase token : Option String) : HttpRequest :=
  request { apiBase := apiBase, path := "/applications/my", method := "GET", token := token }

/-- apiCreateApplication: POST /applications with the token and the
program and term as JSON body. -/
def apiCreateApplication (apiBase token : Option String) (program term : String) : HttpRequest :=
  request
    { apiBase := apiBase, path := "/applications", method := "POST", token := token,
      body := some (Json.obj [("program", Json.str program), ("term", Json.str term)]) }

/-- apiSubmitApplication: POST to the submit path of the application with
the token and no body. -/
def apiSubmitApplication (apiBase token : Option String) (applicationId : String) : HttpRequest :=
  request
    { apiBase := apiBase, path := "/applications/" ++ applicationId ++ "/submit",
      method := "POST", token := token }

/-- apiWithdrawApplication: POST to the withdraw path of the application
with the token and no body. -/
def apiWithdrawApplication (apiBase token : Option String) (applicationId : String) :
    HttpRequest :=
  request
    { apiBase := apiBase, path := "/applications/" ++ applicationId ++ "/withdraw",
      method := "POST", token := token }

/-- true for the bytes the URLSearchParams serializer leaves unencoded:
ASCII alphanumerics, asterisk, hyphen, dot and underscore. -/
def formSafeByte (n : Nat) : Bool :=
  (48 ≤ n && n ≤ 57) || (65 ≤ n && n ≤ 90) || (97 ≤ n && n ≤ 122) ||
    n == 42 || n == 45 || n == 46 || n == 95

/-- UTF-8 encoding of a unicode code point as a byte list. -/
def utf8Bytes (n : Nat) : List Nat :=
  if n < 128 then [n]
  else if n < 2048 then [192 + n / 64, 128 + n % 64]
  else if n < 65536 then [224 + n / 4096, 128 + (n / 64) % 64, 128 + n % 64]
  else [240 + n / 262144, 128 + (n / 4096) % 64, 128 + (n / 64) % 64, 128 + n % 64]

/-- percent-encoded form of one byte, with uppercase hexadecimal digits. -/
def percentByte (n : Nat) : String :=
  String.mk ['%', hexDigit (n / 16 % 16), hexDigit (n % 16)]

/-- form-urlencoded encoding of one character, as URLSearchParams does it:
space becomes a plus, safe bytes stay, other bytes are percent-encoded. -/
def formEncodeChar (c : Char) : String :=
  if c = ' ' then "+"
  else
    String.join ((utf8Bytes c.toNat).map (fun n =>
      if formSafeByte n then String.singleton (Char.ofNat n) else percentByte n))

/-- form-urlencoded encoding of a string. -/
def formEncode (s : String) : String :=
  String.join (s.data.map formEncodeChar)

/-- the toString serialization of a URLSearchParams list: encoded
key-equals-value pairs joined with ampersands. -/
def queryToString (ps : List (String × String)) : String :=
  String.intercalate "&" (ps.map (fun p => formEncode p.1 ++ "=" ++ formEncode p.2))

/-- URLSearchParams.set: replaces the value of an existing key in place,
and appends the pair otherwise. -/
def setParam (ps : List (String × String)) (k v : String) : List (String × String) :=
  if ps.any (fun p => p.1 == k) then ps.map (fun p => if p.1 == k then (k, v) else p)
  else ps ++ [(k, v)]

/-- the parameter list apiAdminListApplications assembles: status and q
are set only when truthy, then limit and offset are always set. -/
def adminParams (status q : Option String) (limit offset : Int) : List (String × String) :=
  let ps0 : List (String × String) := []
  let ps1 :=
    match status with
    | some s => if s != "" then setParam ps0 "status" s else ps0
    | none => ps0
  let ps2 :=
    match q with
    | some s => if s != "" then setParam ps1 "q" s else ps1
    | none => ps1
  let ps3 := setParam ps2 "limit" (toString limit)
  setParam ps3 "offset" (toString offset)

/-- apiAdminListApplications: GET /admin/applications with the serialized
parameter list as query string, the token, and no body; limit defaults to
50 and offset to 0 when the caller omits them (JavaScript default
parameters, triggered by undefined, modelled as none). -/
def apiAdminListApplications (apiBase token : Option String) (status q : Option String)
    (limit offset : Option Int) : HttpRequest :=
  request
    { apiBase := apiBase,
      path := "/admin/applications?" ++
        queryToString (adminParams status q (limit.getD 50) (offset.getD 0)),
      method := "GET", token := token }

/-- apiAdminChangeStatus: POST to the status path of the application with
the token and the target status and reason as JSON body. -/
def apiAdminChangeStatus (apiBase token : Option String) (applicationId to_status : String)
    (reason : Json) : HttpRequest :=
  request
    { apiBase := apiBase, path := "/admin/applications/" ++ applicationId ++ "/status",
      method := "POST", token := token,
      body := some (Json.obj [("to_status", Json.str to_status), ("reason", reason)]) }

/-- a user as fetched from /auth/me: the email and the role strings. -/
structure User where
  email : String
  roles : List String
deriving Repr, DecidableEq

/-- an application row as rendered by the dashboards. -/
structure Application where
  id : String
  student_user_id : String
  program : String
  term : String
  status : String
deriving Repr, DecidableEq

/-- outcome of an awaited API call as observed by a handler: the returned
value, or the message of the thrown error. -/
inductive ApiResult (α : Type) where
  | ok (a : α) : ApiResult α
  | err (message : String) : ApiResult α
deriving Repr, DecidableEq

/-- the AppShell and dashboard state the handlers in App.js mutate: the
token state, the sap_token local storage slot (none when removed), the
current user, the current route, and the per-dashboard error, info and
list states. -/
structure AppState where
  token : String
  storedToken : Option String
  me : Option User
  route : String
  studentApps : List Application
  studentError : String
  studentInfo : String
  adminApps : List Application
  adminError : String
  adminInfo : String
  loginError : String
  registerError : String
deriving Repr, DecidableEq

/-- the user-triggered handler runs of App.js, each carrying the outcomes
of the API calls it awaits. -/
inductive Event where
  | loginSubmit (r : ApiResult String) (meR : ApiResult User) : Event
  | registerSubmit (r : ApiResult String) (meR : ApiResult User) : Event
  | logout : Event
  | refreshSession (meR : ApiResult User) : Event
  | studentRefresh (r : ApiResult (List Application)) : Event
  | createDraft (r : ApiResult Application) (refreshR : ApiResult (List Application)) : Event
  | submitApp (id : String) (r : ApiResult Json)
      (refreshR : ApiResult (List Application)) : Event
  | withdrawApp (id : String) (r : ApiResult Json)
      (refreshR : ApiResult (List Application)) : Event
  | adminRefresh (r : ApiResult (List Application)) : Event
  | adminChangeStatus (id : String) (toStatus : String) (r : ApiResult Json)
      (refreshR : ApiResult (List Application)) : Event

/-- JavaScript message-or-default: msg or fallback, as in the catch blocks
of App.js (the fallback is used when the message is falsy). -/
def orDefault (msg fallback : String) : String :=
  if msg = "" then fallback else msg

/-- refreshMe from AppShell: with a falsy next token it only clears the
current user; otherwise a successful apiMe stores the user, and a thrown
apiMe clears the user, the token state and the sap_token storage slot. -/
def refreshMe (s : AppState) (nextToken : String) (meR : ApiResult User) : AppState :=
  if nextToken = "" then { s with me := none }
  else
    match meR with
    | ApiResult.ok u => { s with me := some u }
    | ApiResult.err _ => { s with me := none, token := "", storedToken := none }

/-- the onAuthed callback of the login and register routes: stores the
received token in state and local storage, refreshes the current user
with it, and navigates to the student route. -/
def onAuthed (s : AppState) (t : String) (meR : ApiResult User) : AppState :=
  let s1 := { s with token := t, storedToken := some t }
  let s2 := refreshMe s1 t meR
  { s2 with route := "/student" }

/-- the refresh handler of StudentDashboard: clears the error and info
texts, then stores the fetched list or the error message. -/
def studentRefreshStep (s : AppState) (r : ApiResult (List Application)) : AppState :=
  match r with
  | ApiResult.ok apps => { s with studentError := "", studentInfo := "", studentApps := apps }
  | ApiResult.err m =>
    { s with studentError := orDefault m "Failed to load applications", studentInfo := "" }

/-- the refresh handler of AdminDashboard: clears the error and info
texts, then stores the fetched list or the error message. -/
def adminRefreshStep (s : AppState) (r : ApiResult (List Application)) : AppState :=
  match r with
  | ApiResult.ok apps => { s with adminError := "", adminInfo := "", adminApps := apps }
  | ApiResult.err m =>
    { s with adminError := orDefault m "Failed to load applications", adminInfo := "" }

/-- one handler run of App.js as a state transition, translated from the
submit, logout, refresh and action handlers. -/
def step (s : AppState) (e : Event) : AppState :=
  match e with
  | Event.loginSubmit (ApiResult.ok t) meR => onAuthed { s with loginError := "" } t meR
  | Event.loginSubmit (ApiResult.err m) _ =>
    { s with loginError := orDefault m "Login failed" }
  | Event.registerSubmit (ApiResult.ok t) meR => onAuthed { s with registerError := "" } t meR
  | Event.registerSubmit (ApiResult.err m) _ =>
    { s with registerError := orDefault m "Registration failed" }
  | Event.logout => { s with token := "", me := none, storedToken := none, route := "/login" }
  | Event.refreshSession meR => refreshMe s s.token meR
  | Event.studentRefresh r => studentRefreshStep { s with studentError := "", studentInfo := "" } r
  | Event.createDraft (ApiResult.ok a) refreshR =>
    studentRefreshStep
      { s with studentError := "", studentInfo := "Created draft application " ++ a.id } refreshR
  | Event.createDraft (ApiResult.err m) _ =>
    { s with studentError := orDefault m "Failed to create application", studentInfo := "" }
  | Event.submitApp id (ApiResult.ok _) refreshR =>
    studentRefreshStep
      { s with studentError := "", studentInfo := "Submitted application " ++ id } refreshR
  | Event.submitApp _ (ApiResult.err m) _ =>
    { s with studentError := orDefault m "Failed to submit application", studentInfo := "" }
  | Event.withdrawApp id (ApiResult.ok _) refreshR =>
    studentRefreshStep
      { s with studentError := "", studentInfo := "Withdrew application " ++ id } refreshR
  | Event.withdrawApp _ (ApiResult.err m) _ =>
    { s with studentError := orDefault m "Failed to withdraw application", studentInfo := "" }
  | Event.adminRefresh r => adminRefreshStep { s with adminError := "", adminInfo := "" } r
  | Event.adminChangeStatus id toStatus (ApiResult.ok _) refreshR =>
    adminRefreshStep
      { s with adminError := "",
               adminInfo := "Changed status to " ++ toStatus ++ " for " ++ id } refreshR
  | Event.adminChangeStatus _ _ (ApiResult.err m) _ =>
    { s with adminError := orDefault m "Failed to change status", adminInfo := "" }

/-- the view a route element resolves to. -/
inductive View where
  | home : View
  | loginPage : View
  | registerPage : View
  | studentDashboard : View
  | adminDashboard : View
  | redirectLogin : View
  | redirectStudent : View
  | redirectAdmin : View
  | accessDenied (role : String) : View
  | notFound : View
deriving Repr, DecidableEq

/-- RequireAuth: a falsy token redirects to the login route, otherwise the
child renders. -/
def requireAuth (token : String) (child : View) : View :=
  if token = "" then View.redirectLogin else child

/-- RequireRole: without the role in the role list an access denied card
renders instead of the child. -/
def requireRole (roles : List String) (role : String) (child : View) : View :=
  if roles.contains role then child else View.accessDenied role

/-- the roles expression of AppShell: the role list of the current user,
or the empty list when no user is loaded. -/
def rolesOf (me : Option User) : List String :=
  match me with
  | some u => u.roles
  | none => []

/-- the route table of AppShell: home, the login and register routes with
their authed redirects, the auth- and role-gated dashboards, and the
catch-all. -/
def renderRoute (path : String) (token : String) (me : Option User) : View :=
  if path = "/" then View.home
  else if path = "/login" then
    if token ≠ "" then
      (if (rolesOf me).contains "admin" then View.redirectAdmin else View.redirectStudent)
    else View.loginPage
  else if path = "/register" then
    if token ≠ "" then View.redirectStudent else View.registerPage
  else if path = "/student" then
    requireAuth token (requireRole (rolesOf me) "student" View.studentDashboard)
  else if path = "/admin" then
    requireAuth token (requireRole (rolesOf me) "admin" View.adminDashboard)
  else View.notFound

/-- disabled condition of the student Submit button. -/
def submitBtnDisabled (busy : Bool) (status : String) : Bool :=
  busy || !(["draft", "needs_info"].contains status)

/-- disabled condition of the student Withdraw button. -/
def withdrawBtnDisabled (busy : Bool) (status : String) : Bool :=
  busy || (["approved", "rejected", "withdrawn"].contains status)

/-- disabled condition of the admin In review button. -/
def inReviewBtnDisabled (busy : Bool) (status : String) : Bool :=
  busy || !(["submitted", "needs_info"].contains status)

/-- disabled condition of the admin Needs info button. -/
def needsInfoBtnDisabled (busy : Bool) (status : String) : Bool :=
  busy || !(["submitted", "in_review"].contains status)

/-- disabled condition of the admin Approve button. -/
def approveBtnDisabled (busy : Bool) (status : String) : Bool :=
  busy || !(["in_review"].contains status)

/-- disabled condition of the admin Reject button. -/
def rejectBtnDisabled (busy : Bool) (status : String) : Bool :=
  busy || !(["submitted", "in_review", "needs_info", "draft"].contains status)

/-- specification-side reading of normalizeBase: the base with exactly one
trailing slash removed when the last character is a slash, and unchanged
otherwise. -/
def specStripSlash (s : String) : String :=
  match s.data.getLast? with
  | some c => if c = '/' then String.mk s.data.dropLast else s
  | none => s

/-- removing the trailing slash of a list ending in a known character. -/
theorem removeTrailingSlash_concat (xs : List Char) (c : Char) :
    removeTrailingSlash (xs ++ [c]) = if c = '/' then xs else xs ++ [c] := by
  induction xs with
  | nil => by_cases h : c = '/' <;> simp [removeTrailingSlash, h]
  | cons x xs ih =>
    cases xs with
    | nil => by_cases h : c = '/' <;> simp [removeTrailingSlash, h]
    | cons y ys =>
      show x :: removeTrailingSlash ((y :: ys) ++ [c]) = _
      rw [ih]
      by_cases h : c = '/' <;> simp [h]

/-- the source normalizeBase agrees with its specification-side reading on
every present base. -/
theorem normalizeBase_some_eq (b : String) : normalizeBase (some b) = specStripSlash b := by
  have hmk : String.mk b.data = b := by cases b ; rfl
  rcases List.eq_nil_or_concat b.data with h | ⟨l, a, h⟩
  · show String.mk (removeTrailingSlash b.data) = specStripSlash b
    unfold specStripSlash
    rw [h]
    simp [removeTrailingSlash]
    cases b
    simp at h
    subst h
    rfl
  · rw [List.concat_eq_append] at h
    show String.mk (removeTrailingSlash b.data) = specStripSlash b
    unfold specStripSlash
    rw [h, removeTrailingSlash_concat, List.getLast?_concat, List.dropLast_concat]
    by_cases ha : a = '/'
    · simp [ha]
    · simp [ha]
      rw [← h]

/-- C9: for every base URL and path the request URL equals the base with
exactly one trailing slash removed (when one is present) concatenated with
the path; in particular a base ending in two slashes keeps one of them,
and a null or undefined base yields the path alone. -/
theorem request_url_base_concat (b p : String) :
    (request { apiBase := some b, path := p }).url = specStripSlash b ++ p
  ∧ (request { apiBase := none, path := p }).url = p
  ∧ (request { apiBase := some (b ++ "//"), path := p }).url = (b ++ "/") ++ p := by
  refine ⟨?_, ?_, ?_⟩
  · show normalizeBase (some b) ++ p = _
    rw [normalizeBase_some_eq]
  · show normalizeBase none ++ p = p
    have : normalizeBase none = "" := rfl
    rw [this]
    simp
  · have hdata : (b ++ "//").data = (b.data ++ ['/']) ++ ['/'] := by
      rw [String.data_append, List.append_assoc]
      rfl
    have hmk : String.mk (b.data ++ ['/']) = b ++ "/" := by
      apply String.ext
      rw [String.data_append]
    show String.mk (removeTrailingSlash (b ++ "//").data) ++ p = (b ++ "/") ++ p
    rw [hdata, removeTrailingSlash_concat]
    simp [hmk]

/-- C2: with a non-empty stored token every token-taking client operation
carries the header Authorization Bearer followed by exactly that token,
and a call made with no token (or an empty one) carries no Authorization
header at all. -/
theorem bearer_header_iff_token (ab : Option String) (t : String) (h : t ≠ "")
    (program term appId toSt : String) (reason : Json) (st q : Option String)
    (lim off : Option Int) :
    (apiMe ab (some t)).headers
      = [("Content-Type", "application/json"), ("Authorization", "Bearer " ++ t)]
  ∧ (apiListMyApplications ab (some t)).headers
      = [("Content-Type", "application/json"), ("Authorization", "Bearer " ++ t)]
  ∧ (apiCreateApplication ab (some t) program term).headers
      = [("Content-Type", "application/json"), ("Authorization", "Bearer " ++ t)]
  ∧ (apiSubmitApplication ab (some t) appId).headers
      = [("Content-Type", "application/json"), ("Authorization", "Bearer " ++ t)]
  ∧ (apiWithdrawApplication ab (some t) appId).headers
      = [("Content-Type", "application/json"), ("Authorization", "Bearer " ++ t)]
  ∧ (apiAdminListApplications ab (some t) st q lim off).headers
      = [("Content-Type", "application/json"), ("Authorization", "Bearer " ++ t)]
  ∧ (apiAdminChangeStatus ab (some t) appId toSt reason).headers
      = [("Content-Type", "application/json"), ("Authorization", "Bearer " ++ t)]
  ∧ (∀ a : RequestArgs, a.token = none →
      (request a).headers = [("Content-Type", "application/json")])
  ∧ (∀ a : RequestArgs, a.token = some "" →
      (request a).headers = [("Content-Type", "application/json")]) := by
  refine ⟨?_, ?_, ?_, ?_, ?_, ?_, ?_, ?_, ?_⟩ <;>
    first
      | (intro a ha ; simp [request, ha])
      | simp [apiMe, apiListMyApplications, apiCreateApplication, apiSubmitApplication,
          apiWithdrawApplication, apiAdminListApplications, apiAdminChangeStatus, request, h]

/-- concrete instance of the bearer header theorem. -/
theorem bearer_header_instance :
    (apiMe none (some "tok")).headers
      = [("Content-Type", "application/json"), ("Authorization", "Bearer tok")] :=
  (bearer_header_iff_token none "tok" (by decide) "" "" "" "" Json.null none none
    none none).1

/-- C6: on the student and admin routes an empty token redirects to login,
a non-empty token without the required role renders the access denied card
instead of the dashboard, and the dashboard renders exactly when the token
is non-empty and the role is in the current user role list. -/
theorem route_gating (token : String) (me : Option User) :
    (renderRoute "/student" token me = View.redirectLogin ↔ token = "")
  ∧ (renderRoute "/student" token me = View.accessDenied "student" ↔
      token ≠ "" ∧ "student" ∉ rolesOf me)
  ∧ (renderRoute "/student" token me = View.studentDashboard ↔
      token ≠ "" ∧ "student" ∈ rolesOf me)
  ∧ (renderRoute "/admin" token me = View.redirectLogin ↔ token = "")
  ∧ (renderRoute "/admin" token me = View.accessDenied "admin" ↔
      token ≠ "" ∧ "admin" ∉ rolesOf me)
  ∧ (renderRoute "/admin" token me = View.adminDashboard ↔
      token ≠ "" ∧ "admin" ∈ rolesOf me) := by
  by_cases ht : token = "" <;> by_cases hs : "student" ∈ rolesOf me <;>
    by_cases hadm : "admin" ∈ rolesOf me <;>
      simp [renderRoute, requireAuth, requireRole, ht, hs, hadm]

/-- concrete instance of the route gating theorem. -/
theorem route_gating_instance :
    renderRoute "/student" "" none = View.redirectLogin ∧
      renderRoute "/admin" "tok" (some { email := "a", roles := ["admin"] })
        = View.adminDashboard := by
  refine ⟨(route_gating "" none).1.mpr rfl, ?_⟩
  exact (route_gating "tok" (some { email := "a", roles := ["admin"] })).2.2.2.2.2.mpr
    (by constructor <;> decide)

/-- C10: each action button is enabled exactly as a function of the busy
flag and the last-known row status: student Submit on draft or needs_info,
student Withdraw except on approved, rejected or withdrawn, admin
In review on submitted or needs_info, admin Needs info on submitted or
in_review, admin Approve on in_review, and admin Reject on submitted,
in_review, needs_info or draft, each additionally requiring not busy. -/
theorem action_button_enabling (busy : Bool) (status : String) :
    (submitBtnDisabled busy status = false ↔
      busy = false ∧ (status = "draft" ∨ status = "needs_info"))
  ∧ (withdrawBtnDisabled busy status = false ↔
      busy = false ∧ status ≠ "approved" ∧ status ≠ "rejected" ∧ status ≠ "withdrawn")
  ∧ (inReviewBtnDisabled busy status = false ↔
      busy = false ∧ (status = "submitted" ∨ status = "needs_info"))
  ∧ (needsInfoBtnDisabled busy status = false ↔
      busy = false ∧ (status = "submitted" ∨ status = "in_review"))
  ∧ (approveBtnDisabled busy status = false ↔
      busy = false ∧ status = "in_review")
  ∧ (rejectBtnDisabled busy status = false ↔
      busy = false ∧ (status = "submitted" ∨ status = "in_review" ∨
        status = "needs_info" ∨ status = "draft")) := by
  refine ⟨?_, ?_, ?_, ?_, ?_, ?_⟩ <;>
    cases busy <;>
      simp [submitBtnDisabled, withdrawBtnDisabled, inReviewBtnDisabled,
        needsInfoBtnDisabled, approveBtnDisabled, rejectBtnDisabled, List.contains] <;>
        tauto

/-- concrete instance of the button enabling theorem. -/
theorem action_button_instance :
    submitBtnDisabled false "draft" = false ∧ approveBtnDisabled false "in_review" = false := by
  refine ⟨(action_button_enabling false "draft").1.mpr ⟨rfl, Or.inl rfl⟩, ?_⟩
  exact (action_button_enabling false "in_review").2.2.2.2.1.mpr ⟨rfl, rfl⟩

/-- the error message claim C1 states, read as generously as possible: the
detail field itself whenever it is present and a string, and otherwise the
status code followed by the JSON stringification of the detail field when
present, or of the whole body. -/
def claimedErrorMessage (status : Nat) (data : Json) : String :=
  match detailField data with
  | some (Json.str s) => s
  | some d => toString status ++ ": " ++ stringify d
  | none => toString status ++ ": " ++ stringify data

/-- counterexample to C1 as stated: a 500 plain-text response with body
oops is reported as 500 colon oops via the String() conversion, while the
claim demands the JSON-stringified fallback, which wraps the text in
quotes. -/
theorem errorMessage_counterexample :
    requestOutcome
        { ok := false, status := 500, contentType := none,
          body := { raw := "oops", parsed := none } }
      = RequestOutcome.failure "500: oops"
  ∧ claimedErrorMessage 500 (Json.str "oops") = "500: \"oops\""
  ∧ (("500: oops" : String) == "500: \"oops\"") = false := by
  refine ⟨rfl, rfl, by decide⟩

/-- the detail field null-coalesced to the body, as the expression
data.detail coalesce data computes it on an object or array body. -/
def coalescedDetail (data : Json) : Json :=
  match detailField data with
  | some Json.null => data
  | some v => v
  | none => data

/-- amended reading of the non-2xx error message: for an object or array
body the message is the coalesced detail when it is a string and otherwise
the status code followed by its JSON stringification; for any other body
the message is the status code followed by the String() conversion of the
body, so raw error text is reported unquoted. -/
def amendedErrorMessage (status : Nat) (data : Json) : String :=
  match data with
  | Json.obj fs =>
    (match coalescedDetail (Json.obj fs) with
     | Json.str s => s
     | d => toString status ++ ": " ++ stringify d)
  | Json.arr xs =>
    (match coalescedDetail (Json.arr xs) with
     | Json.str s => s
     | d => toString status ++ ": " ++ stringify d)
  | other => toString status ++ ": " ++ jsToString other

/-- C1 amended: every non-2xx response whose body parsing succeeds makes
the request helper throw an Error carrying exactly the amended message. -/
theorem error_message_amended (resp : Response) (data : Json)
    (hok : resp.ok = false) (hp : parseJsonOrText resp = some data) :
    requestOutcome resp = RequestOutcome.failure (amendedErrorMessage resp.status data) := by
  unfold requestOutcome
  rw [hp, hok]
  simp only [Bool.false_eq_true, if_false]
  congr 1
  cases data <;>
    simp [errorFromResponse, amendedErrorMessage, coalescedDetail, isObjectLike]

/-- concrete instance of the amended error message theorem. -/
theorem error_message_amended_instance :
    requestOutcome
        { ok := false, status := 404, contentType := some "application/json",
          body := { raw := "\x7b\"detail\":\"Not found\"\x7d",
                    parsed := some (Json.obj [("detail", Json.str "Not found")]) } }
      = RequestOutcome.failure "Not found" :=
  error_message_amended
    { ok := false, status := 404, contentType := some "application/json",
      body := { raw := "\x7b\"detail\":\"Not found\"\x7d",
                parsed := some (Json.obj [("detail", Json.str "Not found")]) } }
    (Json.obj [("detail", Json.str "Not found")]) rfl rfl

/-- C4: every 2xx response returns the parsed JSON body when the content
type declares application/json, and otherwise the JSON.parse result of the
body text when that parse succeeds, or the raw text itself when it
fails. -/
theorem success_body_parsing (resp : Response) (hok : resp.ok = true) :
    (∀ j, strContains (resp.contentType.getD "") "application/json" = true →
      resp.body.parsed = some j → requestOutcome resp = RequestOutcome.success j)
  ∧ (∀ j, strContains (resp.contentType.getD "") "application/json" = false →
      resp.body.parsed = some j → requestOutcome resp = RequestOutcome.success j)
  ∧ (strContains (resp.contentType.getD "") "application/json" = false →
      resp.body.parsed = none →
      requestOutcome resp = RequestOutcome.success (Json.str resp.body.raw)) := by
  refine ⟨?_, ?_, ?_⟩
  · intro j hct hp
    simp [requestOutcome, parseJsonOrText, hct, hp, hok]
  · intro j hct hp
    simp [requestOutcome, parseJsonOrText, hct, hp, hok]
  · intro hct hp
    simp [requestOutcome, parseJsonOrText, hct, hp, hok]

/-- concrete instance of the success parsing theorem, including a content
type that declares JSON with a charset suffix. -/
theorem success_body_parsing_instance :
    requestOutcome
        { ok := true, status := 200,
          contentType := some "application/json; charset=utf-8",
          body := { raw := "\x7b\x7d", parsed := some (Json.obj []) } }
      = RequestOutcome.success (Json.obj []) :=
  (success_body_parsing
      { ok := true, status := 200,
        contentType := some "application/json; charset=utf-8",
        body := { raw := "\x7b\x7d", parsed := some (Json.obj []) } }
      rfl).1 (Json.obj []) rfl rfl

/-- C7: every admin list call builds the admin applications path with the
serialized parameter list as query string; that list carries the status
pair exactly when a non-empty status filter was given, the q pair exactly
when a non-empty search string was given, and always carries limit and
offset, whose values default to 50 and 0 when the caller omits them. -/
theorem adminList_query_params (ab tok : Option String) (st q : Option String)
    (lim off : Option Int) :
    (apiAdminListApplications ab tok st q lim off).url
      = normalizeBase ab ++ ("/admin/applications?"
        ++ queryToString (adminParams st q (lim.getD 50) (off.getD 0)))
  ∧ (∀ v : String, (("status", v) ∈ adminParams st q (lim.getD 50) (off.getD 0)) ↔
      (st = some v ∧ v ≠ ""))
  ∧ (∀ v : String, (("q", v) ∈ adminParams st q (lim.getD 50) (off.getD 0)) ↔
      (q = some v ∧ v ≠ ""))
  ∧ (∀ v : String, (("limit", v) ∈ adminParams st q (lim.getD 50) (off.getD 0)) ↔
      v = toString (lim.getD 50))
  ∧ (∀ v : String, (("offset", v) ∈ adminParams st q (lim.getD 50) (off.getD 0)) ↔
      v = toString (off.getD 0)) := by
  refine ⟨by simp [apiAdminListApplications, request], ?_, ?_, ?_, ?_⟩
  · intro v
    rcases st with _ | s <;> rcases q with _ | sq
    · simp [adminParams, setParam]
    · by_cases hq : sq = "" <;> simp [adminParams, setParam, hq]
    · by_cases hs : s = "" <;> simp [adminParams, setParam, hs] <;> aesop
    · by_cases hs : s = "" <;> by_cases hq : sq = "" <;>
        simp [adminParams, setParam, hs, hq] <;> aesop
  · intro v
    rcases st with _ | s <;> rcases q with _ | sq
    · simp [adminParams, setParam]
    · by_cases hq : sq = "" <;> simp [adminParams, setParam, hq] <;> aesop
    · by_cases hs : s = "" <;> simp [adminParams, setParam, hs]
    · by_cases hs : s = "" <;> by_cases hq : sq = "" <;>
        simp [adminParams, setParam, hs, hq] <;> aesop
  · intro v
    rcases st with _ | s <;> rcases q with _ | sq
    · simp [adminParams, setParam]
    · by_cases hq : sq = "" <;> simp [adminParams, setParam, hq]
    · by_cases hs : s = "" <;> simp [adminParams, setParam, hs]
    · by_cases hs : s = "" <;> by_cases hq : sq = "" <;>
        simp [adminParams, setParam, hs, hq]
  · intro v
    rcases st with _ | s <;> rcases q with _ | sq
    · simp [adminParams, setParam]
    · by_cases hq : sq = "" <;> simp [adminParams, setParam, hq]
    · by_cases hs : s = "" <;> simp [adminParams, setParam, hs]
    · by_cases hs : s = "" <;> by_cases hq : sq = "" <;>
        simp [adminParams, setParam, hs, hq]

/-- concrete instance of the admin query parameter theorem. -/
theorem adminList_query_instance :
    (("status", "draft") ∈ adminParams (some "draft") none 50 0)
  ∧ (("limit", "50") ∈ adminParams (some "draft") none 50 0)
  ∧ (("offset", "0") ∈ adminParams (some "draft") none 50 0) := by
  have h := adminList_query_params none none (some "draft") none none none
  exact ⟨(h.2.1 "draft").mpr ⟨rfl, by decide⟩,
    (h.2.2.2.1 "50").mpr (by decide), (h.2.2.2.2 "0").mpr (by decide)⟩

/-- specification-side token after one handler run, written from the
claimed lifecycle: set only by a successful login or register (to the
received token, unless the immediate current-user refresh with it fails,
which clears it again), cleared at logout, cleared when a session refresh
with a non-empty token throws, and untouched by every other operation. -/
def specTokenAfter (s : AppState) (e : Event) : String :=
  match e with
  | Event.loginSubmit (ApiResult.ok t) meR =>
    (if t = "" then t else
      match meR with
      | ApiResult.ok _ => t
      | ApiResult.err _ => "")
  | Event.registerSubmit (ApiResult.ok t) meR =>
    (if t = "" then t else
      match meR with
      | ApiResult.ok _ => t
      | ApiResult.err _ => "")
  | Event.logout => ""
  | Event.refreshSession meR =>
    (if s.token = "" then s.token else
      match meR with
      | ApiResult.ok _ => s.token
      | ApiResult.err _ => "")
  | _ => s.token

/-- specification-side sap_token storage slot after one handler run,
mirroring the claimed token lifecycle. -/
def specStoredAfter (s : AppState) (e : Event) : Option String :=
  match e with
  | Event.loginSubmit (ApiResult.ok t) meR =>
    (if t = "" then some t else
      match meR with
      | ApiResult.ok _ => some t
      | ApiResult.err _ => none)
  | Event.registerSubmit (ApiResult.ok t) meR =>
    (if t = "" then some t else
      match meR with
      | ApiResult.ok _ => some t
      | ApiResult.err _ => none)
  | Event.logout => none
  | Event.refreshSession meR =>
    (if s.token = "" then s.storedToken else
      match meR with
      | ApiResult.ok _ => s.storedToken
      | ApiResult.err _ => none)
  | _ => s.storedToken

/-- C5: across every handler run the token state and the sap_token storage
slot change exactly as the claimed lifecycle prescribes, and after a
failed session refresh the protected routes render the login redirect. -/
theorem token_lifecycle (s : AppState) (e : Event) :
    (step s e).token = specTokenAfter s e
  ∧ (step s e).storedToken = specStoredAfter s e
  ∧ (∀ m me2, renderRoute "/student"
      (step s (Event.refreshSession (ApiResult.err m))).token me2 = View.redirectLogin)
  ∧ (∀ m me2, renderRoute "/admin"
      (step s (Event.refreshSession (ApiResult.err m))).token me2 = View.redirectLogin) := by
  have h12 : (step s e).token = specTokenAfter s e
      ∧ (step s e).storedToken = specStoredAfter s e := by
    cases e with
    | loginSubmit r meR =>
      rcases r with t | m
      · by_cases ht : t = "" <;> rcases meR with u | m2 <;>
          simp [step, onAuthed, refreshMe, specTokenAfter, specStoredAfter, ht]
      · simp [step, specTokenAfter, specStoredAfter]
    | registerSubmit r meR =>
      rcases r with t | m
      · by_cases ht : t = "" <;> rcases meR with u | m2 <;>
          simp [step, onAuthed, refreshMe, specTokenAfter, specStoredAfter, ht]
      · simp [step, specTokenAfter, specStoredAfter]
    | logout => simp [step, specTokenAfter, specStoredAfter]
    | refreshSession meR =>
      by_cases hst : s.token = "" <;> rcases meR with u | m2 <;>
        simp [step, refreshMe, specTokenAfter, specStoredAfter, hst]
    | studentRefresh r =>
      rcases r with apps | m <;>
        simp [step, studentRefreshStep, specTokenAfter, specStoredAfter]
    | createDraft r rr =>
      rcases r with a | m <;> rcases rr with apps | m2 <;>
        simp [step, studentRefreshStep, specTokenAfter, specStoredAfter]
    | submitApp id r rr =>
      rcases r with j | m <;> rcases rr with apps | m2 <;>
        simp [step, studentRefreshStep, specTokenAfter, specStoredAfter]
    | withdrawApp id r rr =>
      rcases r with j | m <;> rcases rr with apps | m2 <;>
        simp [step, studentRefreshStep, specTokenAfter, specStoredAfter]
    | adminRefresh r =>
      rcases r with apps | m <;>
        simp [step, adminRefreshStep, specTokenAfter, specStoredAfter]
    | adminChangeStatus id ts r rr =>
      rcases r with j | m <;> rcases rr with apps | m2 <;>
        simp [step, adminRefreshStep, specTokenAfter, specStoredAfter]
  have hclear : ∀ m, (step s (Event.refreshSession (ApiResult.err m))).token = "" := by
    intro m
    by_cases hst : s.token = "" <;> simp [step, refreshMe, hst]
  refine ⟨h12.1, h12.2, fun m me2 => ?_, fun m me2 => ?_⟩ <;>
    rw [hclear m] <;> simp [renderRoute, requireAuth]

/-- a concrete authenticated student session, as it looks after a
successful login. -/
def exampleStudentState : AppState :=
  { token := "tok", storedToken := some "tok",
    me := some { email := "student1@example.com", roles := ["student"] },
    route := "/student", studentApps := [], studentError := "", studentInfo := "",
    adminApps := [], adminError := "", adminInfo := "", loginError := "", registerError := "" }

/-- counterexample to C3 as stated: when the list-own-applications call of
the student dashboard fails, the handler only records the inline error;
the token, the storage slot and the route are all left unchanged, so the
session is not cleared and no redirect to login happens. -/
theorem studentRefresh_failure_keeps_token :
    (step exampleStudentState
        (Event.studentRefresh (ApiResult.err "Could not validate credentials"))).token = "tok"
  ∧ (step exampleStudentState
        (Event.studentRefresh (ApiResult.err "Could not validate credentials"))).storedToken
      = some "tok"
  ∧ (step exampleStudentState
        (Event.studentRefresh (ApiResult.err "Could not validate credentials"))).route
      = "/student"
  ∧ (step exampleStudentState
        (Event.studentRefresh (ApiResult.err "Could not validate credentials"))).studentError
      = "Could not validate credentials" := by
  refine ⟨rfl, rfl, rfl, by decide⟩

/-- C3 amended: a failing list-own-applications call only surfaces an
inline error message and leaves the token, the storage slot and the route
unchanged; it is a failure of the current-user refresh (apiMe throwing)
that clears the stored session, after which rendering the student route
redirects to login. -/
theorem session_clear_on_me_failure (s : AppState) (m : String) :
    (step s (Event.studentRefresh (ApiResult.err m))).token = s.token
  ∧ (step s (Event.studentRefresh (ApiResult.err m))).storedToken = s.storedToken
  ∧ (step s (Event.studentRefresh (ApiResult.err m))).route = s.route
  ∧ (step s (Event.studentRefresh (ApiResult.err m))).studentError
      = orDefault m "Failed to load applications"
  ∧ (s.token ≠ "" →
      (step s (Event.refreshSession (ApiResult.err m))).token = ""
    ∧ (step s (Event.refreshSession (ApiResult.err m))).storedToken = none)
  ∧ (∀ me2, renderRoute "/student" "" me2 = View.redirectLogin) := by
  refine ⟨?_, ?_, ?_, ?_, ?_, ?_⟩
  · simp [step, studentRefreshStep]
  · simp [step, studentRefreshStep]
  · simp [step, studentRefreshStep]
  · simp [step, studentRefreshStep]
  · intro h
    constructor <;> simp [step, refreshMe, h]
  · intro me2
    simp [renderRoute, requireAuth]

/-- concrete instance of the session clearing theorem. -/
theorem session_clear_instance :
    (step exampleStudentState (Event.refreshSession (ApiResult.err "boom"))).token = ""
  ∧ (step exampleStudentState (Event.refreshSession (ApiResult.err "boom"))).storedToken
      = none :=
  (session_clear_on_me_failure exampleStudentState "boom").2.2.2.2.1 (by decide)

/-- counterexample to C8 as stated: the login request carries no
authorization header at all, and the current-user request carries no
body. -/
theorem login_request_no_auth_header :
    ((apiLogin none "e@example.com" "pw").headers.any
        (fun p => p.1 == "Authorization")) = false
  ∧ (apiMe none (some "tok")).body = none := by
  refine ⟨by decide, rfl⟩

/-- C8 amended: every operation declares the JSON content type; the bearer
authorization header is attached exactly on the seven token-taking
operations when a non-empty token is supplied, while register and login
send none; and a JSON-stringified body is sent exactly by register, login,
create-application and admin-change-status, the other operations sending
no body. -/
theorem request_shapes_amended (ab : Option String) (t : String) (h : t ≠ "")
    (email pw fn ln program term appId toSt : String) (reason : Json)
    (st q : Option String) (lim off : Option Int) :
    (("Content-Type", "application/json") ∈ (apiRegister ab email pw fn ln).headers
      ∧ (apiRegister ab email pw fn ln).headers.lookup "Authorization" = none
      ∧ (apiRegister ab email pw fn ln).body
          = some (stringify (Json.obj
              [("email", Json.str email), ("password", Json.str pw),
               ("first_name", Json.str fn), ("last_name", Json.str ln)])))
  ∧ (("Content-Type", "application/json") ∈ (apiLogin ab email pw).headers
      ∧ (apiLogin ab email pw).headers.lookup "Authorization" = none
      ∧ (apiLogin ab email pw).body
          = some (stringify (Json.obj
              [("email", Json.str email), ("password", Json.str pw)])))
  ∧ (("Content-Type", "application/json") ∈ (apiMe ab (some t)).headers
      ∧ ("Authorization", "Bearer " ++ t) ∈ (apiMe ab (some t)).headers
      ∧ (apiMe ab (some t)).body = none)
  ∧ (("Content-Type", "application/json") ∈ (apiListMyApplications ab (some t)).headers
      ∧ ("Authorization", "Bearer " ++ t) ∈ (apiListMyApplications ab (some t)).headers
      ∧ (apiListMyApplications ab (some t)).body = none)
  ∧ (("Content-Type", "application/json") ∈ (apiCreateApplication ab (some t) program term).headers
      ∧ ("Authorization", "Bearer " ++ t) ∈ (apiCreateApplication ab (some t) program term).headers
      ∧ (apiCreateApplication ab (some t) program term).body
          = some (stringify (Json.obj
              [("program", Json.str program), ("term", Json.str term)])))
  ∧ (("Content-Type", "application/json") ∈ (apiSubmitApplication ab (some t) appId).headers
      ∧ ("Authorization", "Bearer " ++ t) ∈ (apiSubmitApplication ab (some t) appId).headers
      ∧ (apiSubmitApplication ab (some t) appId).body = none)
  ∧ (("Content-Type", "application/json") ∈ (apiWithdrawApplication ab (some t) appId).headers
      ∧ ("Authorization", "Bearer " ++ t) ∈ (apiWithdrawApplication ab (some t) appId).headers
      ∧ (apiWithdrawApplication ab (some t) appId).body = none)
  ∧ (("Content-Type", "application/json") ∈ (apiAdminListApplications ab (some t) st q lim off).headers
      ∧ ("Authorization", "Bearer " ++ t) ∈ (apiAdminListApplications ab (some t) st q lim off).headers
      ∧ (apiAdminListApplications ab (some t) st q lim off).body = none)
  ∧ (("Content-Type", "application/json")
        ∈ (apiAdminChangeStatus ab (some t) appId toSt reason).headers
      ∧ ("Authorization", "Bearer " ++ t)
          ∈ (apiAdminChangeStatus ab (some t) appId toSt reason).headers
      ∧ (apiAdminChangeStatus ab (some t) appId toSt reason).body
          = some (stringify (Json.obj
              [("to_status", Json.str toSt), ("reason", reason)]))) := by
  refine ⟨?_, ?_, ?_, ?_, ?_, ?_, ?_, ?_, ?_⟩ <;>
    refine ⟨?_, ?_, ?_⟩ <;>
      simp [apiRegister, apiLogin, apiMe, apiListMyApplications, apiCreateApplication,
        apiSubmitApplication, apiWithdrawApplication, apiAdminListApplications,
        apiAdminChangeStatus, request, jsTruthy, h]

/-- concrete instance of the amended request shape theorem. -/
theorem request_shapes_instance :
    (apiMe none (some "tok")).body = none
  ∧ ("Authorization", "Bearer tok") ∈ (apiMe none (some "tok")).headers := by
  have h := request_shapes_amended none "tok" (by decide) "" "" "" "" "" "" "" ""
    Json.null none none none none
  exact ⟨h.2.2.1.2.2, h.2.2.1.2.1⟩
